import Mathlib

/-!
# Verification of the resource-traversal extraction and session engine

A shallow embedding of the repository's core:

* `lib/extractors.ts` — service detection (`SERVICE_PATTERNS`, `detectService`),
  the per-service content extractors, the generic fallback extractor and the
  dispatcher `getExtractor`, modelled over a small DOM tree (`Elem`).
* `lib/browser.ts` — `fetchAuthenticated` and `fetchWithExtractor`, modelled as
  trace-producing functions over an oracle `World` that fixes the outcome of
  each browser primitive (launch, goto, page content, barrier clicks, …).
* `index.ts` — the `traverse_resource` tool handler composed from the above.

Strings are Lean `String`s; JavaScript's `str.includes`, `substring`,
`trim` and `length` are modelled on the character list of the string
(the test pages used in witnesses are ASCII, where the two agree).
-/

/-- Prefix test on character lists. -/
def listIsPre : List Char → List Char → Bool
  | [], _ => true
  | _ :: _, [] => false
  | a :: as, b :: bs => a == b && listIsPre as bs

/-- Infix (contiguous-sublist) test on character lists. -/
def listIsInf (needle : List Char) : List Char → Bool
  | [] => needle.isEmpty
  | b :: rest => listIsPre needle (b :: rest) || listIsInf needle rest

/-- JS `haystack.includes(needle)`. -/
def strIncludes (haystack needle : String) : Bool :=
  listIsInf needle.data haystack.data

/-- JS `s.substring(0, n)`. -/
def strTake (n : Nat) (s : String) : String :=
  ⟨s.data.take n⟩

/-- JS whitespace for `trim` (the ASCII cases). -/
def isJsWs (c : Char) : Bool :=
  c == ' ' || c == '\n' || c == '\t' || c == '\r'

/-- JS `s.trim()`. -/
def jsTrim (s : String) : String :=
  ⟨((s.data.dropWhile isJsWs).reverse.dropWhile isJsWs).reverse⟩

/-- JS `array.join(sep)`. -/
def joinSep (sep : String) : List String → String
  | [] => ""
  | [s] => s
  | s :: r :: rest => s ++ sep ++ joinSep sep (r :: rest)

/-!
## Service detection (`lib/extractors.ts`)

Each entry of the source `SERVICE_PATTERNS` table is a regex of the shape
`/^https:\/\/host\/path\//` — an anchored literal with every metacharacter
escaped — so `pattern.test(url)` is exactly a string-prefix test, which is
how a pattern is represented here (by its literal prefix).
-/

/-- The keys of the source's `SERVICE_PATTERNS` object (`ServiceType`). -/
inductive ServiceType where
  | gemini | googleDocs | notebookLM | chatgpt | grok | discord | slack | raindrop
deriving DecidableEq, Repr

/-- The JS key string of each service, as produced by `Object.entries`. -/
def serviceName : ServiceType → String
  | .gemini => "gemini"
  | .googleDocs => "googleDocs"
  | .notebookLM => "notebookLM"
  | .chatgpt => "chatgpt"
  | .grok => "grok"
  | .discord => "discord"
  | .slack => "slack"
  | .raindrop => "raindrop"

/-- `SERVICE_PATTERNS`, in the source's declaration order; each regex is
represented by the literal URL prefix it is anchored to. -/
def SERVICE_PATTERNS : List (ServiceType × String) :=
  [ (.gemini, "https://gemini.google.com/app/"),
    (.googleDocs, "https://docs.google.com/document/"),
    (.notebookLM, "https://notebooklm.google.com/"),
    (.chatgpt, "https://chatgpt.com/c/"),
    (.grok, "https://grok.com/c/"),
    (.discord, "https://discord.com/channels/"),
    (.slack, "https://app.slack.com/client/"),
    (.raindrop, "https://app.raindrop.io/my/") ]

/-- `pattern.test(url)` for an anchored-literal pattern. -/
def patTest (pat url : String) : Bool :=
  listIsPre pat.data url.data

/-- `detectService(url)`: first entry of `SERVICE_PATTERNS` (in declaration
order, as `Object.entries` iterates string keys) whose pattern matches,
else `null`. -/
def detectService (url : String) : Option ServiceType :=
  (SERVICE_PATTERNS.find? (fun sp => patTest sp.2 url)).map (·.1)

/-!
## The DOM model

`Elem` is a rose tree of elements.  `text` stands for the element's direct
text content (placed before its children), `className` for the raw `class`
attribute, `attrs` for the remaining attributes.  `innerText` is modelled as
the concatenation of the text fields of the subtree in document order.
-/

inductive Elem : Type where
  | node (tag : String) (className : String) (attrs : List (String × String))
      (text : String) (children : List Elem)

def Elem.tag : Elem → String
  | .node t _ _ _ _ => t

def Elem.className : Elem → String
  | .node _ c _ _ _ => c

def Elem.attrs : Elem → List (String × String)
  | .node _ _ a _ _ => a

def Elem.text : Elem → String
  | .node _ _ _ t _ => t

def Elem.children : Elem → List Elem
  | .node _ _ _ _ cs => cs

/-- Attribute lookup (`el.getAttribute(name)`). -/
def getAttr (e : Elem) (name : String) : Option String :=
  (e.attrs.find? (fun a => a.1 == name)).map (·.2)

/-- Space-separated tokens of a class attribute value. -/
def classTokensAux : List Char → List Char → List String
  | [], cur => [⟨cur.reverse⟩]
  | c :: rest, cur =>
      if c == ' ' then ⟨cur.reverse⟩ :: classTokensAux rest []
      else classTokensAux rest (c :: cur)

/-- CSS class-token membership: `.c` selector. -/
def hasClass (e : Elem) (c : String) : Bool :=
  (classTokensAux e.className.data []).contains c

/-- `[class*="s"]` selector: the raw class attribute contains `s`. -/
def classContains (e : Elem) (s : String) : Bool :=
  strIncludes e.className s

/-- `[a="v"]` selector. -/
def attrEq (e : Elem) (a v : String) : Bool :=
  getAttr e a == some v

/-- `[a*="s"]` selector. -/
def attrContains (e : Elem) (a s : String) : Bool :=
  match getAttr e a with
  | some v => strIncludes v s
  | none => false

/-- `[a]` selector (attribute present). -/
def attrPresent (e : Elem) (a : String) : Bool :=
  (getAttr e a).isSome

mutual
/-- `el.innerText`: text of the subtree in document order. -/
def elemText : Elem → String
  | .node _ _ _ t cs => t ++ elemTextList cs
def elemTextList : List Elem → String
  | [] => ""
  | e :: es => elemText e ++ elemTextList es
end

mutual
/-- A simple markup serialization of an element's subtree. -/
def elemHtml : Elem → String
  | .node tg c _ t cs =>
      "<" ++ tg ++ " class=\x22" ++ c ++ "\x22>" ++ t ++ elemHtmlList cs ++ "</" ++ tg ++ ">"
def elemHtmlList : List Elem → String
  | [] => ""
  | e :: es => elemHtml e ++ elemHtmlList es
end

/-- `el.innerHTML`: markup of the element's contents. -/
def innerHtml : Elem → String
  | .node _ _ _ t cs => t ++ elemHtmlList cs

mutual
/-- `root.querySelectorAll(sel)` followed by `.remove()` on every match:
prunes every descendant subtree whose root satisfies `p` (the root element
itself is never one of the removed selectors in the source's uses). -/
def removeAll (p : Elem → Bool) : Elem → Elem
  | .node tg c a t cs => .node tg c a t (removeAllList p cs)
def removeAllList (p : Elem → Bool) : List Elem → List Elem
  | [] => []
  | e :: es =>
      if p e then removeAllList p es
      else removeAll p e :: removeAllList p es
end

mutual
/-- All nodes of the subtree in document (pre)order, each paired with its
ancestor chain (nearest ancestor first); `ancs` is the chain above the root. -/
def nodesCtx (ancs : List Elem) : Elem → List (List Elem × Elem)
  | .node tg c a t cs =>
      (ancs, .node tg c a t cs) :: nodesCtxList (.node tg c a t cs :: ancs) cs
def nodesCtxList (ancs : List Elem) : List Elem → List (List Elem × Elem)
  | [] => []
  | e :: es => nodesCtx ancs e ++ nodesCtxList ancs es
end

/-- `document.querySelectorAll(p)` with ancestor chains (the document is
modelled by its body element, itself a candidate). -/
def qsaCtx (p : Elem → Bool) (doc : Elem) : List (List Elem × Elem) :=
  (nodesCtx [] doc).filter (fun x => p x.2)

/-- `document.querySelectorAll(p)` (matches only). -/
def qsa (p : Elem → Bool) (doc : Elem) : List Elem :=
  (qsaCtx p doc).map (·.2)

/-- `document.querySelector(p)`. -/
def qs (p : Elem → Bool) (doc : Elem) : Option Elem :=
  (qsa p doc).head?

/-- `el.querySelectorAll(p)`: proper descendants of `el` only. -/
def descQsa (p : Elem → Bool) (e : Elem) : List Elem :=
  ((nodesCtxList [e] e.children).filter (fun x => p x.2)).map (·.2)

/-- `el.querySelector(p)`. -/
def descQs (p : Elem → Bool) (e : Elem) : Option Elem :=
  (descQsa p e).head?

/-- `el.closest(p)` for an element with ancestor chain `ancs`: nearest of
the element itself and its ancestors satisfying `p`. -/
def closest (p : Elem → Bool) (ancs : List Elem) (e : Elem) : Option Elem :=
  (e :: ancs).find? p

/-- `el.parentElement`. -/
def parentElem (ancs : List Elem) : Option Elem :=
  ancs.head?

/-!
## The generic fallback extractor (`extractGeneric`)

Removes `script, style, noscript, nav, header, footer`, then returns the
`innerText` of `main, article, [role="main"]` (first match), defaulting to
the document body.
-/

def isGenericNoise (e : Elem) : Bool :=
  e.tag == "script" || e.tag == "style" || e.tag == "noscript" ||
  e.tag == "nav" || e.tag == "header" || e.tag == "footer"

def isMainLandmark (e : Elem) : Bool :=
  e.tag == "main" || e.tag == "article" || attrEq e "role" "main"

def extractGeneric (doc : Elem) : String :=
  let pruned := removeAll isGenericNoise doc
  elemText ((qs isMainLandmark pruned).getD pruned)

/-!
## Specific extractors (`lib/extractors.ts`)

Each extractor is split into its structured-fragment extraction (the
`page.evaluate` that builds the `results` array) and the top-level function
that joins the fragments or falls back when none were found.  Selector
waits and scroll loops do not change the modelled document: `Elem` stands
for the page state the final `evaluate` observes.
-/

/-- `extractChatGPT`'s `page.evaluate`: one fragment per
`[data-testid*="conversation-turn"]` element holding a
`.markdown, .prose, [data-message-author-role]` descendant with non-empty
trimmed text. -/
def chatgptMessages (doc : Elem) : List String :=
  (qsa (fun e => attrContains e "data-testid" "conversation-turn") doc).foldl
    (fun results turn =>
      let isUser := (descQs (fun e => attrEq e "data-testid" "user-message") turn).isSome
      match descQs (fun e => hasClass e "markdown" || hasClass e "prose" ||
          attrPresent e "data-message-author-role") turn with
      | some contentEl =>
          let author := if isUser then "**User:**" else "**ChatGPT:**"
          let text := jsTrim (elemText contentEl)
          if text != "" then results ++ [author ++ "\n" ++ text] else results
      | none => results)
    []

def extractChatGPT (doc : Elem) : String :=
  let messages := chatgptMessages doc
  if messages = [] then extractGeneric doc
  else joinSep "\n\n---\n\n" messages

/-- `extractGrok`'s `page.evaluate`: fragments from
`.prose, [class*="message"], [data-testid="message-container"]` elements,
author from an enclosing `[class*="message"]` container or the parent
mentioning `You`, de-duplicated by a 50-character substring check. -/
def grokMessages (doc : Elem) : List String :=
  (qsaCtx (fun e => hasClass e "prose" || classContains e "message" ||
      attrEq e "data-testid" "message-container") doc).foldl
    (fun results x =>
      let el := x.2
      let text := jsTrim (elemText el)
      if text != "" && text.length > 5 then
        let container := closest (fun e => classContains e "message") x.1 el
        let isUser :=
          (match container with
           | some c => strIncludes (elemText c) "You"
           | none => false) ||
          (match parentElem x.1 with
           | some p => strIncludes (elemText p) "You"
           | none => false)
        let author := if isUser then "**User:**" else "**Grok:**"
        if !(results.any (fun r => strIncludes r (strTake 50 text))) then
          results ++ [author ++ "\n" ++ text]
        else results
      else results)
    []

/-- `extractGrok`'s inline zero-fragment fallback:
`document.querySelector('main') || document.body` then `innerText`,
with no noise removal. -/
def grokFallback (doc : Elem) : String :=
  elemText ((qs (fun e => e.tag == "main") doc).getD doc)

def extractGrok (doc : Elem) : String :=
  let messages := grokMessages doc
  if messages = [] then grokFallback doc
  else joinSep "\n\n---\n\n" messages

/-- `extractSlack`'s `page.evaluate`: fragments from
`.c-message_kit__message, .c-message--light, [role="listitem"]` elements
with both a sender and a body descendant, de-duplicated by a 50-character
substring check. -/
def slackMessages (doc : Elem) : List String :=
  (qsa (fun e => hasClass e "c-message_kit__message" ||
      hasClass e "c-message--light" || attrEq e "role" "listitem") doc).foldl
    (fun results el =>
      let authorEl := descQs (fun e => hasClass e "c-message__sender_button" ||
        attrEq e "data-qa" "message_sender_name" || hasClass e "c-message__sender") el
      let bodyEl := descQs (fun e => hasClass e "c-message_kit__blocks" ||
        hasClass e "c-message__body" || hasClass e "c-message__content-body") el
      let timeEl := descQs (fun e => hasClass e "c-timestamp__label" ||
        hasClass e "c-timestamp") el
      match authorEl, bodyEl with
      | some ae, some be =>
          let author := jsTrim (elemText ae)
          let content := jsTrim (elemText be)
          let time := match timeEl with
            | some te => jsTrim (elemText te)
            | none => ""
          if content != "" && !(results.any (fun m => strIncludes m (strTake 50 content))) then
            results ++ ["**" ++ author ++ "** [" ++ time ++ "]: " ++ content]
          else results
      | _, _ => results)
    []

def extractSlack (doc : Elem) : String :=
  let messages := slackMessages doc
  if messages = [] then extractGeneric doc
  else joinSep "\n\n" messages

/-- `extractDiscord`'s `page.evaluate`: fragments from
`[class*="messageContent-"]` elements inside a `[class*="message-"]`
container, with the author from a `[class*="username-"]` descendant. -/
def discordMessages (doc : Elem) : List String :=
  (qsaCtx (fun e => classContains e "messageContent-") doc).foldl
    (fun results x =>
      let el := x.2
      match closest (fun e => classContains e "message-") x.1 el with
      | none => results
      | some container =>
          let author := match descQs (fun e => classContains e "username-") container with
            | some ae => elemText ae
            | none => "Unknown"
          let content := elemText el
          if content != "" then results ++ ["**" ++ author ++ "**: " ++ content]
          else results)
    []

def extractDiscord (doc : Elem) : String :=
  let messages := discordMessages doc
  if messages = [] then extractGeneric doc
  else joinSep "\n\n" messages

/-- `extractGeminiChat`'s `page.evaluate`: fragments from
`[data-message-id]` elements, attributed to the user when enclosed in a
`[data-speaker="user"]` container. -/
def geminiMessages (doc : Elem) : List String :=
  (qsaCtx (fun e => attrPresent e "data-message-id") doc).foldl
    (fun conversation x =>
      let el := x.2
      let text := jsTrim (elemText el)
      if text != "" then
        let isUser := (closest (fun e => attrEq e "data-speaker" "user") x.1 el).isSome
        let pre := if isUser then "**User:**" else "**Gemini:**"
        conversation ++ [pre ++ "\n" ++ text]
      else conversation)
    []

/-- `extractGeminiChat`'s inline zero-fragment fallback:
`document.querySelector('main') || document.body` then `innerText`,
with no noise removal. -/
def geminiFallback (doc : Elem) : String :=
  elemText ((qs (fun e => e.tag == "main") doc).getD doc)

def extractGeminiChat (doc : Elem) : String :=
  let messages := geminiMessages doc
  if messages = [] then geminiFallback doc
  else joinSep "\n\n---\n\n" messages

/-- `extractGoogleDoc`'s `page.evaluate`: the `.kix-appview-editor` subtree
with `script, style, .kix-cursor, .kix-selection-overlay` removed, else the
joined `.kix-lineview` lines, else the empty string. -/
def googleDocContent (doc : Elem) : String :=
  match qs (fun e => hasClass e "kix-appview-editor") doc with
  | some editor =>
      elemText (removeAll (fun e => e.tag == "script" || e.tag == "style" ||
        hasClass e "kix-cursor" || hasClass e "kix-selection-overlay") editor)
  | none =>
      let lines := qsa (fun e => hasClass e "kix-lineview") doc
      if lines.length > 0 then joinSep "\n" (lines.map elemText)
      else ""

def extractGoogleDoc (doc : Elem) : String :=
  let content := googleDocContent doc
  if content = "" || (jsTrim content).length < 50 then extractGeneric doc
  else content

/-- `extractNotebookLM`'s `page.evaluate`: fragments from
`.chat-turn, [class*="message"], .source-card` elements, attributed to the
user when the element's `innerHTML` mentions `You` or it sits inside a
`[class*="user"]` container. -/
def nlmMessages (doc : Elem) : List String :=
  (qsaCtx (fun e => hasClass e "chat-turn" || classContains e "message" ||
      hasClass e "source-card") doc).foldl
    (fun results x =>
      let turn := x.2
      let text := jsTrim (elemText turn)
      if text != "" then
        let isUser := strIncludes (innerHtml turn) "You" ||
          (closest (fun e => classContains e "user") x.1 turn).isSome
        let author := if isUser then "**User:**" else "**NotebookLM:**"
        results ++ [author ++ "\n" ++ text]
      else results)
    []

/-- `extractNotebookLM`'s inline zero-fragment fallback:
`document.querySelector('main') || document.body`, cloned with
`nav, header, button, [role="navigation"]` removed, then `innerText`. -/
def nlmFallback (doc : Elem) : String :=
  let mainEl := (qs (fun e => e.tag == "main") doc).getD doc
  elemText (removeAll (fun e => e.tag == "nav" || e.tag == "header" ||
    e.tag == "button" || attrEq e "role" "navigation") mainEl)

def extractNotebookLM (doc : Elem) : String :=
  let messages := nlmMessages doc
  if messages = [] then nlmFallback doc
  else joinSep "\n\n---\n\n" messages

/-- `extractRaindrop`'s `page.evaluate`: one Markdown link per `.bookmark`
element, from its `.title, [class*="title-"]` descendant and first `a`
descendant. -/
def raindropBookmarks (doc : Elem) : List String :=
  (qsa (fun e => hasClass e "bookmark") doc).foldl
    (fun results item =>
      let title := match descQs (fun e => hasClass e "title" || classContains e "title-") item with
        | some te => elemText te
        | none => "Untitled"
      let url := match descQs (fun e => e.tag == "a") item with
        | some le => (getAttr le "href").getD ""
        | none => "No URL"
      if title != "" && url != "" then results ++ ["- [" ++ title ++ "](" ++ url ++ ")"]
      else results)
    []

def extractRaindrop (doc : Elem) : String :=
  let bookmarks := raindropBookmarks doc
  if bookmarks = [] then extractGeneric doc
  else joinSep "\n" bookmarks

/-- `getExtractor(url)`: `detectService` then the fixed `switch` table,
defaulting to the generic extractor. -/
def getExtractor (url : String) : Elem → String :=
  match detectService url with
  | some .gemini => extractGeminiChat
  | some .googleDocs => extractGoogleDoc
  | some .notebookLM => extractNotebookLM
  | some .chatgpt => extractChatGPT
  | some .grok => extractGrok
  | some .discord => extractDiscord
  | some .slack => extractSlack
  | some .raindrop => extractRaindrop
  | none => extractGeneric

/-!
## Browser lifecycle and barrier handling (`lib/browser.ts`)

`fetchAuthenticated` and `fetchWithExtractor` are modelled as functions
producing an `Except` outcome together with the list of browser-primitive
events they perform, over a `World` oracle that fixes the outcome of each
fallible primitive.  The TypeScript `try { … } finally { await
context.close() }` appears as the `.close` event appended on every path
entered after a successful launch.
-/

inductive Ev where
  | launch
  | goto
  | wait (ms : Nat)
  | getContent
  | clickSlackLink
  | clickConsent
  | getTitle
  | runExtractor
  | evalBody
  | close
deriving DecidableEq, Repr

/-- Outcomes of the browser primitives for one traversal:
`launchErr`/`gotoErr` are `some msg` when the primitive throws `msg`;
`pageContent` is what `page.content()` returns; `slackLinkFound` whether the
`page.$` for the continue-in-browser link finds one; `consentFrames` records,
frame by frame, whether the accept button is found; the `…ClickFails` flags
make the corresponding click throw (swallowed by the source's inner
`try`/`catch`); `pageTitle` is `page.title()`; `bodyText` the result of
`fetchAuthenticated`'s final full-page `evaluate`. -/
structure World where
  launchErr : Option String
  gotoErr : Option String
  pageContent : String
  slackLinkFound : Bool
  slackClickFails : Bool
  consentFrames : List Bool
  consentClickFails : Bool
  pageTitle : String
  bodyText : String

/-- The message of the error thrown when no session exists. -/
def noSessionErr : String :=
  "No authenticated session found. Run auth setup first: bun run auth"

/-- The app-redirect block: when the page content mentions the Slack
redirect phrasing, click the continue-in-browser link if found and wait
5000 ms; a click failure is swallowed. -/
def slackRedirectSteps (w : World) : List Ev :=
  if strIncludes w.pageContent "open this link in your browser" ||
     strIncludes w.pageContent "use Slack in your browser" then
    if w.slackLinkFound then
      if w.slackClickFails then [.clickSlackLink] else [.clickSlackLink, .wait 5000]
    else []
  else []

/-- The `for (const frame of page.frames())` body: click the first frame's
accept button and wait 5000 ms, then `break`; a click failure escapes the
loop into the swallowing `catch`. -/
def consentFrameLoop (clickFails : Bool) : List Bool → List Ev
  | [] => []
  | found :: rest =>
      if found then
        if clickFails then [.clickConsent] else [.clickConsent, .wait 5000]
      else consentFrameLoop clickFails rest

/-- The cookie-consent block, guarded by the page content mentioning the
consent-wall phrasing. -/
def consentSteps (w : World) : List Ev :=
  if strIncludes w.pageContent "ACCEPT ALL COOKIES" ||
     strIncludes w.pageContent "Cookie Consent Manager" then
    consentFrameLoop w.consentClickFails w.consentFrames
  else []

/-- The barrier-handling section shared verbatim by `fetchAuthenticated`
and `fetchWithExtractor`: Slack app-redirect then consent wall. -/
def barrierSteps (w : World) : List Ev :=
  slackRedirectSteps w ++ consentSteps w

/-- The `{ content, title }` record returned by both fetch functions. -/
structure FetchResult where
  title : String
  content : String
deriving DecidableEq, Repr

/-- `fetchAuthenticated(url)`: session check, persistent-context launch,
navigate, 2000 ms settle, read content, barrier handling, then title and the
full-page text `evaluate`; the context is closed in `finally`. -/
def fetchAuthenticated (session : Bool) (w : World) :
    Except String FetchResult × List Ev :=
  if !session then (.error noSessionErr, [])
  else match w.launchErr with
  | some e => (.error e, [])
  | none =>
    match w.gotoErr with
    | some e => (.error e, [.launch, .goto, .close])
    | none =>
        (.ok ⟨w.pageTitle, w.bodyText⟩,
          [.launch, .goto, .wait 2000, .getContent] ++ barrierSteps w ++
            [.getTitle, .evalBody, .close])

/-- `fetchWithExtractor(url, extractor)`: like `fetchAuthenticated` but with
a 5000 ms settle and the supplied extractor in place of the full-page
`evaluate`; `extractorRes` is the extractor's outcome on the loaded page. -/
def fetchWithExtractor (session : Bool) (w : World)
    (extractorRes : Except String String) :
    Except String FetchResult × List Ev :=
  if !session then (.error noSessionErr, [])
  else match w.launchErr with
  | some e => (.error e, [])
  | none =>
    match w.gotoErr with
    | some e => (.error e, [.launch, .goto, .close])
    | none =>
        match extractorRes with
        | .error e =>
            (.error e,
              [.launch, .goto, .wait 5000, .getContent] ++ barrierSteps w ++
                [.getTitle, .runExtractor, .close])
        | .ok content =>
            (.ok ⟨w.pageTitle, content⟩,
              [.launch, .goto, .wait 5000, .getContent] ++ barrierSteps w ++
                [.getTitle, .runExtractor, .close])

/-!
## The `traverse_resource` tool handler (`index.ts`)
-/

/-- The no-session remediation text of the `traverse_resource` handler. -/
def noSessionText : String :=
  "❌ No authenticated session found.\n\nTo set up authentication, run:\n```\ncd Projects/resource-traversal-mcp && bun run auth\n```\n\nThis will open a browser for you to log in to Google."

/-- The session-expired remediation text, referencing the attempted URL. -/
def reauthText (url : String) : String :=
  "🔐 **Session Expired or Auth Required**\n\nThe AI hit a login wall at: " ++ url ++
    "\n\n**Action Required:**\nRun the Universal Auth Key to refresh your session:\n```bash\ncd Projects/resource-traversal-mcp && bun run auth " ++
    url ++ "\n```"

/-- The auth-wall classification of a fetch failure's message. -/
def isAuthWallMsg (msg : String) : Bool :=
  strIncludes msg "Session expired" || strIncludes msg "Sign in" ||
    strIncludes msg "login"

/-- The ` (service)` heading label. -/
def serviceLabel : Option ServiceType → String
  | some s => " (" ++ serviceName s ++ ")"
  | none => ""

/-- The success output: `['# title(label)', '', '**Source:** url', '', '---',
'', content].join('\n')`. -/
def successOutput (title : String) (service : Option ServiceType)
    (url content : String) : String :=
  joinSep "\n"
    ["# " ++ title ++ serviceLabel service, "", "**Source:** " ++ url, "",
      "---", "", content]

/-- The `traverse_resource` handler: required-URL check, session check,
service detection, raw/specific dispatch, auth-wall classification of fetch
failures (a re-thrown failure reaches the outer `catch`, which prefixes
`❌ Error: `), and success formatting.  Returns the `(text, isError)` pair
of the tool response together, with the browser events performed. -/
def traverseResource (url : String) (raw : Bool) (session : Bool) (w : World)
    (extractorRes : Except String String) : (String × Bool) × List Ev :=
  if url = "" then (("Error: URL is required", true), [])
  else if !session then ((noSessionText, true), [])
  else
    let service := detectService url
    let fetched :=
      if raw || service.isNone then fetchAuthenticated session w
      else fetchWithExtractor session w extractorRes
    match fetched.1 with
    | .error e =>
        if isAuthWallMsg e then ((reauthText url, true), fetched.2)
        else (("❌ Error: " ++ e, true), fetched.2)
    | .ok r =>
        ((successOutput r.title service url r.content, false), fetched.2)

/-!
## Extractor effect traces (history-walk boundedness)

For the termination claim about the scroll-to-top history walks, each
extractor's sequence of page effects is modelled as an event list: the
bounded selector wait, the fixed sleeps, the `for`-loop scroll iterations
and the final `evaluate`s.  None of these depend on anything but the loop
literals in the source and (for the conditional fallback `evaluate`) the
fragments the page yields.
-/

inductive XEv where
  | waitSelector
  | sleep (ms : Nat)
  | scrollToTop
  | evalExtract
  | evalFallback
deriving DecidableEq, Repr

/-- A `for (let i = 0; i < iters; i++)` scroll loop: each iteration scrolls
to top and waits `delayMs`. -/
def scrollWalk (iters delayMs : Nat) : List XEv :=
  (List.replicate iters [XEv.scrollToTop, XEv.sleep delayMs]).flatten

/-- `extractChatGPT`'s effects: selector wait, 10 scroll iterations with
1000 ms delays, the message `evaluate`, and the generic fallback `evaluate`
when no fragment was found. -/
def extractChatGPTTrace (doc : Elem) : List XEv :=
  [XEv.waitSelector] ++ scrollWalk 10 1000 ++ [XEv.evalExtract] ++
    (if chatgptMessages doc = [] then [XEv.evalFallback] else [])

/-- `extractGrok`'s effects: 10000 ms sleep, 15 scroll iterations with
1000 ms delays, the message `evaluate`, and the inline fallback `evaluate`
when no fragment was found. -/
def extractGrokTrace (doc : Elem) : List XEv :=
  [XEv.sleep 10000] ++ scrollWalk 15 1000 ++ [XEv.evalExtract] ++
    (if grokMessages doc = [] then [XEv.evalFallback] else [])

/-- `extractSlack`'s effects: selector wait, 15 scroll iterations with
800 ms delays, the message `evaluate`, and the generic fallback `evaluate`
when no fragment was found. -/
def extractSlackTrace (doc : Elem) : List XEv :=
  [XEv.waitSelector] ++ scrollWalk 15 800 ++ [XEv.evalExtract] ++
    (if slackMessages doc = [] then [XEv.evalFallback] else [])

/-- `extractDiscord`'s effects: selector wait, the message `evaluate`, and
the generic fallback `evaluate` when no fragment was found — there is no
scroll loop in its source. -/
def extractDiscordTrace (doc : Elem) : List XEv :=
  [XEv.waitSelector, XEv.evalExtract] ++
    (if discordMessages doc = [] then [XEv.evalFallback] else [])

/-- `extractGeminiChat`'s effects: selector wait, the message `evaluate`,
and the inline fallback `evaluate` when no fragment was found — there is no
scroll loop in its source. -/
def extractGeminiChatTrace (doc : Elem) : List XEv :=
  [XEv.waitSelector, XEv.evalExtract] ++
    (if geminiMessages doc = [] then [XEv.evalFallback] else [])

/-!
## Auxiliary definitions used by the theorems
-/

/-- Following the spec's words (§4.3, Selection): the fixed identifier→function
table that `getExtractor` is specified to consult after `ServiceDetector`,
with unknown identifiers resolving to the generic extractor. -/
def specExtractorTable : ServiceType → (Elem → String)
  | .gemini => extractGeminiChat
  | .googleDocs => extractGoogleDoc
  | .notebookLM => extractNotebookLM
  | .chatgpt => extractChatGPT
  | .grok => extractGrok
  | .discord => extractDiscord
  | .slack => extractSlack
  | .raindrop => extractRaindrop

/-- Barrier-handling click events. -/
def isBarrierEv : Ev → Bool
  | .clickSlackLink => true
  | .clickConsent => true
  | _ => false

/-- A plain no-barrier world used by concrete witnesses. -/
def wBase : World :=
  { launchErr := none, gotoErr := none, pageContent := "plain page",
    slackLinkFound := false, slackClickFails := false, consentFrames := [],
    consentClickFails := false, pageTitle := "T", bodyText := "B" }

/-- A world whose page shows a cookie-consent wall with the accept button
present in the first frame. -/
def wConsent : World :=
  { launchErr := none, gotoErr := none,
    pageContent := "Cookie Consent Manager banner ACCEPT ALL COOKIES",
    slackLinkFound := false, slackClickFails := false,
    consentFrames := [true], consentClickFails := false,
    pageTitle := "Example Page", bodyText := "body text" }

/-- A world whose navigation fails with a sign-in wall message. -/
def wSignin : World :=
  { launchErr := none, gotoErr := some "Sign in required",
    slackLinkFound := false, slackClickFails := false, consentFrames := [],
    consentClickFails := false, pageContent := "", pageTitle := "", bodyText := "" }

/-- A page with a navigation bar and a content div, no `main` landmark and
no chat fragments: the generic extractor strips the nav, the inline grok
fallback keeps it. -/
def gdoc0 : Elem :=
  .node "body" "" [] ""
    [.node "nav" "" [] "NAVBAR" [], .node "div" "" [] "hello" []]

/-- An empty page: every structured-fragment extraction yields zero
fragments on it. -/
def doc0 : Elem := .node "body" "" [] "" []

/-!
## Bridging and helper lemmas
-/

theorem listIsPre_iff (as bs : List Char) : listIsPre as bs = true ↔ as <+: bs := by
  induction as generalizing bs with
  | nil => simp [listIsPre]
  | cons a as ih =>
    cases bs with
    | nil => simp [listIsPre]
    | cons b bs =>
      rw [listIsPre, List.cons_prefix_cons, Bool.and_eq_true, beq_iff_eq, ih]

theorem listIsInf_iff (as bs : List Char) : listIsInf as bs = true ↔ as <:+: bs := by
  induction bs with
  | nil => simp [listIsInf, List.infix_nil, List.isEmpty_iff]
  | cons b bs ih =>
    rw [listIsInf, List.infix_cons_iff, Bool.or_eq_true, listIsPre_iff, ih]

theorem strIncludes_of_mid (a u b : String) : strIncludes (a ++ u ++ b) u = true := by
  rw [strIncludes, listIsInf_iff]
  exact ⟨a.data, b.data, by simp [String.data_append]⟩

theorem find?_get_first {α : Type} (p : α → Bool) (l : List α) (i : Fin l.length)
    (h : p (l.get i) = true)
    (hj : ∀ j : Fin l.length, j.val < i.val → p (l.get j) = false) :
    l.find? p = some (l.get i) := by
  induction l with
  | nil => exact absurd i.isLt (by simp)
  | cons a l ih =>
    rcases i with ⟨iv, hi⟩
    cases iv with
    | zero =>
      simp only [List.get] at h
      simp [List.find?, h]
    | succ k =>
      have ha : p a = false := hj ⟨0, by simp⟩ (by simp)
      rw [List.find?, ha]
      exact ih ⟨k, by simpa using hi⟩ (by simpa using h)
        (fun j hjk => by
          have := hj ⟨j.val + 1, by simp⟩ (by simpa using hjk)
          simpa using this)

theorem find?_perm_unique {α : Type} (p : α → Bool) {l l' : List α} (hp : l.Perm l')
    (uniq : ∀ a ∈ l, ∀ b ∈ l, p a = true → p b = true → a = b) :
    l.find? p = l'.find? p := by
  cases hfind : l.find? p with
  | none =>
    rw [List.find?_eq_none] at hfind
    symm
    rw [List.find?_eq_none]
    intro x hx
    exact hfind x (hp.mem_iff.mpr hx)
  | some x =>
    have hpx := List.find?_some hfind
    have hmx := List.mem_of_find?_eq_some hfind
    have hx' : x ∈ l' := hp.mem_iff.mp hmx
    have hsome : (l'.find? p).isSome := List.find?_isSome.mpr ⟨x, hx', hpx⟩
    obtain ⟨y, hy⟩ := Option.isSome_iff_exists.mp hsome
    have hpy := List.find?_some hy
    have hmy : y ∈ l := hp.mem_iff.mpr (List.mem_of_find?_eq_some hy)
    rw [hy, uniq y hmy x hmx hpy hpx]

theorem consentFrameLoop_mem (cf : Bool) (fs : List Bool) :
    ∀ e ∈ consentFrameLoop cf fs, e = Ev.clickConsent ∨ e = Ev.wait 5000 := by
  induction fs with
  | nil => simp [consentFrameLoop]
  | cons f fs ih =>
    intro e he
    rw [consentFrameLoop] at he
    by_cases hf : f = true
    · rw [if_pos hf] at he
      by_cases hcf : cf = true
      · rw [if_pos hcf] at he
        simp at he
        exact Or.inl he
      · rw [if_neg hcf] at he
        simpa using he
    · rw [if_neg hf] at he
      exact ih e he

theorem barrierSteps_mem (w : World) :
    ∀ e ∈ barrierSteps w, e = Ev.clickSlackLink ∨ e = Ev.clickConsent ∨ e = Ev.wait 5000 := by
  intro e he
  rw [barrierSteps, List.mem_append] at he
  rcases he with he | he
  · rw [slackRedirectSteps] at he
    split at he <;> [skip; simp at he]
    split at he <;> [skip; simp at he]
    split at he <;> simp at he <;> tauto
  · rw [consentSteps] at he
    split at he <;> [skip; simp at he]
    rcases consentFrameLoop_mem _ _ e he with h | h <;> tauto

theorem barrierSteps_count_close (w : World) : (barrierSteps w).count Ev.close = 0 := by
  rw [List.count_eq_zero]
  intro h
  rcases barrierSteps_mem w _ h with h' | h' | h' <;> exact Ev.noConfusion h'

theorem barrierSteps_count_launch (w : World) : (barrierSteps w).count Ev.launch = 0 := by
  rw [List.count_eq_zero]
  intro h
  rcases barrierSteps_mem w _ h with h' | h' | h' <;> exact Ev.noConfusion h'

theorem successOutput_eq (title : String) (service : Option ServiceType) (url content : String) :
    successOutput title service url content =
      "# " ++ title ++ serviceLabel service ++ "\n\n**Source:** " ++ url ++ "\n\n---\n\n" ++
        content := by
  rw [successOutput]
  simp [joinSep]
  apply String.ext
  simp [String.data_append]

theorem scrollWalk_count (n d : Nat) : (scrollWalk n d).count XEv.scrollToTop = n := by
  induction n with
  | zero => rfl
  | succ k ih =>
    have h2 : scrollWalk (k + 1) d = [XEv.scrollToTop, XEv.sleep d] ++ scrollWalk k d := by
      rw [scrollWalk, scrollWalk, List.replicate_succ, List.flatten_cons]
    rw [h2, List.count_append, ih]
    simp [List.count_cons]
    omega

/-!
## Claim theorems
-/

/-- C1 (counterexample): on a page with a navigation bar, no `main` landmark
and no chat fragments, `extractGrok`'s structured-fragment extraction yields
zero fragments, yet its output differs from `extractGeneric`'s — its inline
fallback skips the noise removal the generic extractor performs. -/
theorem grok_zero_fragments_differs_from_generic :
    grokMessages gdoc0 = [] ∧ extractGrok gdoc0 ≠ extractGeneric gdoc0 := by
  decide

/-- C1 (amended): when structured-fragment extraction yields zero fragments,
the chatgpt, slack, discord and raindrop extractors produce exactly
`extractGeneric`'s output (googleDocs likewise when its extracted text is
empty), while the grok, gemini and notebookLM extractors instead produce
their own inline main/body fallbacks. -/
theorem zero_fragment_fallback (doc : Elem) :
    (chatgptMessages doc = [] → extractChatGPT doc = extractGeneric doc) ∧
    (slackMessages doc = [] → extractSlack doc = extractGeneric doc) ∧
    (discordMessages doc = [] → extractDiscord doc = extractGeneric doc) ∧
    (raindropBookmarks doc = [] → extractRaindrop doc = extractGeneric doc) ∧
    (googleDocContent doc = "" → extractGoogleDoc doc = extractGeneric doc) ∧
    (grokMessages doc = [] → extractGrok doc = grokFallback doc) ∧
    (geminiMessages doc = [] → extractGeminiChat doc = geminiFallback doc) ∧
    (nlmMessages doc = [] → extractNotebookLM doc = nlmFallback doc) := by
  refine ⟨?_, ?_, ?_, ?_, ?_, ?_, ?_, ?_⟩ <;> intro h <;>
    simp [extractChatGPT, extractSlack, extractDiscord, extractRaindrop, extractGoogleDoc,
      extractGrok, extractGeminiChat, extractNotebookLM, h]

theorem zero_fragment_fallback_witness :
    extractChatGPT doc0 = extractGeneric doc0 ∧ extractSlack doc0 = extractGeneric doc0 ∧
    extractDiscord doc0 = extractGeneric doc0 ∧ extractRaindrop doc0 = extractGeneric doc0 ∧
    extractGoogleDoc doc0 = extractGeneric doc0 ∧ extractGrok doc0 = grokFallback doc0 ∧
    extractGeminiChat doc0 = geminiFallback doc0 ∧
    extractNotebookLM doc0 = nlmFallback doc0 := by
  have h := zero_fragment_fallback doc0
  exact ⟨h.1 (by decide), h.2.1 (by decide), h.2.2.1 (by decide), h.2.2.2.1 (by decide),
    h.2.2.2.2.1 (by decide), h.2.2.2.2.2.1 (by decide), h.2.2.2.2.2.2.1 (by decide),
    h.2.2.2.2.2.2.2 (by decide)⟩

/-- C2: every traversal that launches a browser context (session present,
launch succeeds) performs exactly one launch and exactly one close, on every
exit path of both `fetchAuthenticated` and `fetchWithExtractor` — normal
return, navigation failure, and extractor failure alike. -/
theorem context_released_exactly_once (session : Bool) (w : World)
    (er : Except String String) (hs : session = true) (hl : w.launchErr = none) :
    ((fetchAuthenticated session w).2.count Ev.launch = 1 ∧
     (fetchAuthenticated session w).2.count Ev.close = 1) ∧
    ((fetchWithExtractor session w er).2.count Ev.launch = 1 ∧
     (fetchWithExtractor session w er).2.count Ev.close = 1) := by
  subst hs
  cases hg : w.gotoErr <;> cases er <;>
    simp [fetchAuthenticated, fetchWithExtractor, hl, hg, List.count_append, List.count_cons,
      barrierSteps_count_close, barrierSteps_count_launch]

theorem context_released_exactly_once_witness :
    ((fetchAuthenticated true wBase).2.count Ev.launch = 1 ∧
     (fetchAuthenticated true wBase).2.count Ev.close = 1) ∧
    ((fetchWithExtractor true wBase (.error "boom")).2.count Ev.launch = 1 ∧
     (fetchWithExtractor true wBase (.error "boom")).2.count Ev.close = 1) :=
  context_released_exactly_once true wBase (.error "boom") rfl rfl

/-- C3 (counterexample): a `traverse_resource` call with `raw = true` on an
unknown-service URL still executes barrier handling — the raw path goes
through `fetchAuthenticated`, whose source contains the same consent-wall
and app-redirect blocks, so the consent click occurs between navigation and
extraction. -/
theorem raw_mode_runs_barrier_handling :
    detectService "https://example.com/page" = none ∧
    Ev.clickConsent ∈
      (traverseResource "https://example.com/page" true true wConsent (.ok "x")).2 := by
  decide

/-- C3 (amended): barrier handling runs on both paths — after a successful
navigation, `fetchAuthenticated` (the raw / unknown-service path) performs
exactly the same barrier-handling click events as `fetchWithExtractor`
(the specific-extractor path). -/
theorem barrier_handling_on_both_paths (session : Bool) (w : World)
    (er : Except String String) (hs : session = true) (hl : w.launchErr = none)
    (hg : w.gotoErr = none) :
    (fetchAuthenticated session w).2.filter isBarrierEv =
      (barrierSteps w).filter isBarrierEv ∧
    (fetchWithExtractor session w er).2.filter isBarrierEv =
      (barrierSteps w).filter isBarrierEv := by
  subst hs
  cases er <;>
    simp [fetchAuthenticated, fetchWithExtractor, hl, hg, List.filter_append, isBarrierEv,
      List.filter]

theorem barrier_handling_on_both_paths_witness :
    (fetchAuthenticated true wConsent).2.filter isBarrierEv =
      (barrierSteps wConsent).filter isBarrierEv ∧
    (fetchWithExtractor true wConsent (.ok "x")).2.filter isBarrierEv =
      (barrierSteps wConsent).filter isBarrierEv :=
  barrier_handling_on_both_paths true wConsent (.ok "x") rfl rfl rfl

/-- C4: `detectService` returns the first `SERVICE_PATTERNS` entry in
declaration order whose pattern matches the URL, and `null` when no
registered pattern matches. -/
theorem detectService_first_match (url : String) :
    ((∀ sp ∈ SERVICE_PATTERNS, patTest sp.2 url = false) → detectService url = none) ∧
    (∀ i : Fin SERVICE_PATTERNS.length,
      patTest (SERVICE_PATTERNS.get i).2 url = true →
      (∀ j : Fin SERVICE_PATTERNS.length, j.val < i.val →
        patTest (SERVICE_PATTERNS.get j).2 url = false) →
      detectService url = some (SERVICE_PATTERNS.get i).1) := by
  constructor
  · intro h
    unfold detectService
    rw [List.find?_eq_none.mpr (fun sp hsp => by simp [h sp hsp])]
    rfl
  · intro i h hj
    unfold detectService
    rw [find?_get_first _ _ i h hj]
    rfl

theorem detectService_first_match_witness :
    detectService "https://example.com/page" = none ∧
    detectService "https://grok.com/c/123" = some ServiceType.grok := by
  constructor
  · exact (detectService_first_match "https://example.com/page").1 (by decide)
  · exact (detectService_first_match "https://grok.com/c/123").2 ⟨4, by decide⟩
      (by decide) (by decide)

/-- C5: with no persistent profile (`session = false`), both fetch functions
fail with the session-not-found error before any browser event — their
traces are empty — and the `traverse_resource` handler returns the
no-session remediation text without attempting a launch. -/
theorem no_session_fails_before_launch (url : String) (raw : Bool) (w : World)
    (er : Except String String) (hu : url ≠ "") :
    fetchAuthenticated false w = (.error noSessionErr, []) ∧
    fetchWithExtractor false w er = (.error noSessionErr, []) ∧
    traverseResource url raw false w er = ((noSessionText, true), []) := by
  refine ⟨rfl, rfl, ?_⟩
  rw [traverseResource, if_neg hu]
  rfl

theorem no_session_fails_before_launch_witness :
    fetchAuthenticated false wBase = (.error noSessionErr, []) ∧
    fetchWithExtractor false wBase (.ok "x") = (.error noSessionErr, []) ∧
    traverseResource "https://example.com/page" false false wBase (.ok "x") =
      ((noSessionText, true), []) :=
  no_session_fails_before_launch "https://example.com/page" false wBase (.ok "x") (by decide)

/-- C6: when the fetch fails with a message containing one of the auth-wall
substrings (`Session expired`, `Sign in`, `login`), the handler returns the
re-authentication instruction, whose text contains the attempted URL; for
any other failure message the error is re-thrown and surfaced as the
generic `❌ Error:` message. -/
theorem fetch_error_classification (url : String) (raw : Bool) (w : World)
    (er : Except String String) (e : String) (hu : url ≠ "")
    (hf : (if raw = true ∨ detectService url = none then fetchAuthenticated true w
           else fetchWithExtractor true w er).1 = .error e) :
    (isAuthWallMsg e = true →
      (traverseResource url raw true w er).1 = (reauthText url, true) ∧
      strIncludes (reauthText url) url = true) ∧
    (isAuthWallMsg e = false →
      (traverseResource url raw true w er).1 = ("❌ Error: " ++ e, true)) := by
  constructor
  · intro hwall
    constructor
    · rw [traverseResource, if_neg hu]
      simp [hf, hwall]
    · rw [reauthText]
      exact strIncludes_of_mid _ _ _
  · intro hwall
    rw [traverseResource, if_neg hu]
    simp [hf, hwall]

theorem fetch_error_classification_witness :
    (traverseResource "https://example.com/page" false true wSignin (.ok "x")).1 =
      (reauthText "https://example.com/page", true) ∧
    strIncludes (reauthText "https://example.com/page") "https://example.com/page" = true :=
  (fetch_error_classification "https://example.com/page" false wSignin (.ok "x")
    "Sign in required" (by decide) rfl).1 (by decide)

/-- C7: `getExtractor` refines the spec's composition of `ServiceDetector`
with the fixed identifier→function table — each registered service resolves
to its extractor and an unknown service to `extractGeneric`. -/
theorem getExtractor_resolves (url : String) :
    getExtractor url = ((detectService url).map specExtractorTable).getD extractGeneric := by
  unfold getExtractor
  cases h : detectService url with
  | none => rfl
  | some s => cases s <;> rfl

/-- C8: every successful `traverse_resource` call returns a heading line of
the page title with the detected-service label in parentheses, a source
line with the requested URL, a separator, then the extracted content; with
an unknown service the label is empty, so no service label appears. -/
theorem success_output_format (url : String) (raw : Bool) (w : World)
    (er : Except String String) (c : String) (hu : url ≠ "")
    (hl : w.launchErr = none) (hg : w.gotoErr = none) :
    ((raw = true ∨ detectService url = none) →
      (traverseResource url raw true w er).1 =
        ("# " ++ w.pageTitle ++ serviceLabel (detectService url) ++ "\n\n**Source:** " ++ url ++
          "\n\n---\n\n" ++ w.bodyText, false)) ∧
    (raw = false → ∀ s : ServiceType, detectService url = some s → er = .ok c →
      (traverseResource url raw true w er).1 =
        ("# " ++ w.pageTitle ++ " (" ++ serviceName s ++ ")" ++ "\n\n**Source:** " ++ url ++
          "\n\n---\n\n" ++ c, false)) ∧
    (detectService url = none → serviceLabel (detectService url) = "") := by
  refine ⟨?_, ?_, ?_⟩
  · intro hcase
    rw [traverseResource, if_neg hu]
    rcases hcase with hr | hn
    · subst hr
      simp [fetchAuthenticated, hl, hg, successOutput_eq]
    · simp [hn, fetchAuthenticated, hl, hg, successOutput_eq, serviceLabel]
  · intro hr s hs hok
    subst hr
    subst hok
    rw [traverseResource, if_neg hu]
    simp [hs, fetchWithExtractor, hl, hg, successOutput_eq, serviceLabel]
    apply String.ext
    simp [String.data_append]
  · intro hn
    rw [hn]
    rfl

theorem success_output_format_witness :
    (traverseResource "https://example.com/page" true true wBase (.ok "x")).1 =
      ("# " ++ wBase.pageTitle ++ serviceLabel (detectService "https://example.com/page") ++
        "\n\n**Source:** " ++ "https://example.com/page" ++ "\n\n---\n\n" ++ wBase.bodyText,
        false) :=
  (success_output_format "https://example.com/page" true wBase (.ok "x") "x" (by decide)
    rfl rfl).1 (Or.inl rfl)

/-- C9 (counterexample): `extractDiscord` performs no scroll-to-top history
walk at all — its effect trace contains zero scroll iterations — so not
every chat-style extractor performs such a walk. -/
theorem discord_performs_no_history_walk :
    (extractDiscordTrace doc0).count XEv.scrollToTop = 0 ∧
    extractDiscordTrace doc0 = [XEv.waitSelector, XEv.evalExtract, XEv.evalFallback] := by
  decide

/-- C9 (amended): each chat-style extractor performs a fixed, page-state
independent number of scroll-to-top iterations — 10 for chatgpt, 15 for
grok, 15 for slack, and none for discord and gemini — so every history walk
terminates after its compile-time iteration count and never loops until
history is exhausted. -/
theorem history_walks_fixed_count (doc : Elem) :
    (extractChatGPTTrace doc).count XEv.scrollToTop = 10 ∧
    (extractGrokTrace doc).count XEv.scrollToTop = 15 ∧
    (extractSlackTrace doc).count XEv.scrollToTop = 15 ∧
    (extractDiscordTrace doc).count XEv.scrollToTop = 0 ∧
    (extractGeminiChatTrace doc).count XEv.scrollToTop = 0 := by
  refine ⟨?_, ?_, ?_, ?_, ?_⟩ <;>
    simp only [extractChatGPTTrace, extractGrokTrace, extractSlackTrace, extractDiscordTrace,
      extractGeminiChatTrace, List.count_append, scrollWalk_count] <;>
    split <;> simp [List.count_cons]

/-- C10: the registered service patterns are pairwise disjoint — no URL
matches two entries of `SERVICE_PATTERNS` — and consequently
`detectService`'s result is independent of the table's iteration order. -/
theorem service_patterns_disjoint :
    (∀ (url : String) (i j : Fin SERVICE_PATTERNS.length), i ≠ j →
      ¬(patTest (SERVICE_PATTERNS.get i).2 url = true ∧
        patTest (SERVICE_PATTERNS.get j).2 url = true)) ∧
    (∀ (url : String) (l : List (ServiceType × String)), l.Perm SERVICE_PATTERNS →
      (l.find? (fun sp => patTest sp.2 url)).map (·.1) = detectService url) := by
  have key : ∀ i j : Fin SERVICE_PATTERNS.length, i ≠ j →
      listIsPre (SERVICE_PATTERNS.get i).2.data (SERVICE_PATTERNS.get j).2.data = false := by
    decide
  have disj : ∀ (url : String) (i j : Fin SERVICE_PATTERNS.length), i ≠ j →
      ¬(patTest (SERVICE_PATTERNS.get i).2 url = true ∧
        patTest (SERVICE_PATTERNS.get j).2 url = true) := by
    rintro url i j hne ⟨h1, h2⟩
    rw [patTest, listIsPre_iff] at h1 h2
    rcases List.prefix_or_prefix_of_prefix h1 h2 with hp | hp
    · have hk := key i j hne
      rw [(listIsPre_iff _ _).mpr hp] at hk
      simp at hk
    · have hk := key j i (Ne.symm hne)
      rw [(listIsPre_iff _ _).mpr hp] at hk
      simp at hk
  refine ⟨disj, ?_⟩
  intro url l hperm
  unfold detectService
  rw [find?_perm_unique (fun sp => patTest sp.2 url) hperm ?_]
  intro a ha b hb hpa hpb
  rw [hperm.mem_iff, List.mem_iff_get] at ha hb
  obtain ⟨i, hi⟩ := ha
  obtain ⟨j, hk⟩ := hb
  by_cases hij : i = j
  · rw [← hi, ← hk, hij]
  · exact absurd ⟨by rw [hi]; exact hpa, by rw [hk]; exact hpb⟩ (disj url i j hij)

theorem service_patterns_disjoint_witness :
    ¬(patTest "https://gemini.google.com/app/" "https://gemini.google.com/app/x" = true ∧
      patTest "https://docs.google.com/document/" "https://gemini.google.com/app/x" = true) ∧
    ((SERVICE_PATTERNS.reverse.find? (fun sp => patTest sp.2 "https://grok.com/c/9")).map
        (·.1) = detectService "https://grok.com/c/9") := by
  constructor
  · exact service_patterns_disjoint.1 "https://gemini.google.com/app/x" ⟨0, by decide⟩
      ⟨1, by decide⟩ (by decide)
  · exact service_patterns_disjoint.2 "https://grok.com/c/9" SERVICE_PATTERNS.reverse
      (List.reverse_perm SERVICE_PATTERNS)
